import Mathlib

/-!
Shallow embedding of the inference-process supervisor in
`llama_python_server/main.py`: the GPU availability gate
(`_wait_for_gpu_free`, `_gpu_processes`), the backend launcher
(`start_llama_server`), the completion router (`completions`,
`POST /v1/completions`) and the crash monitor (`monitor_llama_process`),
together with a small interleaving model used for the mutual-exclusion
property.  External effects (GPU accounting queries, process spawning,
health polling, log files) are supplied by an explicit environment;
diagnostics written to `logs/last_start_error.log` and processes spawned
are recorded as events.
-/

namespace LlamaSupervisor

/-- One row of `nvidia-smi --query-compute-apps` output, as parsed by
`_gpu_processes` in `main.py`. -/
structure GpuProc where
  pid : Nat
  process_name : String
  used_memory_mib : Nat
deriving Repr, DecidableEq

/-- Outcome of one invocation of the GPU accounting query in
`_gpu_processes`: a successful query returning a (possibly empty) process
list, a `FileNotFoundError` (`nvidia-smi` not installed), or any other
exception. -/
inductive GpuQuery where
  | ok (procs : List GpuProc)
  | errNotFound
  | errOther
deriving Repr, DecidableEq

/-- `_gpu_processes` (main.py lines 219-249): returns the parsed process
list on success and `[]` both when `nvidia-smi` is missing
(`FileNotFoundError`) and on any other query failure. -/
def gpu_processes : GpuQuery → List GpuProc
  | .ok procs => procs
  | .errNotFound => []
  | .errOther => []

/-- `_wait_for_gpu_free` (main.py lines 12-20).  The loop polls
`_gpu_processes` once per second until the 30 s deadline; `queries` is the
sequence of query outcomes observed during the timeout window, so the
window is exhausted when the list is.  Returns `true` at the first poll
whose process list is empty, `false` if the deadline passes first. -/
def wait_for_gpu_free : List GpuQuery → Bool
  | [] => false
  | q :: rest => if (gpu_processes q).isEmpty then true else wait_for_gpu_free rest

/-- The `llama_cpp` configuration object returned by `load_config`
(main.py line 214-216), with the fields read by `start_llama_server`.
Sampling parameters only ever flow into the command line as strings, so
they are kept as strings. -/
structure Config where
  llamaCppPath : String
  modelPath : String
  chatTemplate : String
  port : Nat
  ctxSize : Nat
  batchSize : Nat
  ubatchSize : Nat
  parallel : Nat
  threads : Nat
  gpuLayers : Int
  cacheK : String
  cacheV : String
  temp : String
  topK : String
  topP : String
  repeatPen : String
  mirostat : String
  flashAttn : String
  nPredict : Nat
deriving Repr, DecidableEq

/-- `QWEN_CONFIG` (main.py line 187). -/
def QWEN_CONFIG : String := "../llama_config.json"

/-- `MISTRAL_CONFIG` (main.py line 188). -/
def MISTRAL_CONFIG : String := "../mistral_config.json"

/-- The configuration-error message of main.py line 67. -/
def GPU_LAYERS_MSG : String :=
  "[ERROR] Refusing to start: n-gpu-layers must be > 0 for GPU mode."

/-- ASCII lowercasing via the underlying character list (Python's
`str.lower()` on the ASCII configuration strings modelled here;
`String.toLower` itself is defined by well-founded recursion and does
not reduce definitionally). -/
def lowerStr (s : String) : String := String.mk (s.data.map Char.toLower)

/-- Auxiliary substring scan: does `needle` occur at some position of the
haystack? -/
def containsSubAux (needle : List Char) : List Char → Bool
  | [] => needle.isEmpty
  | b :: bs => List.isPrefixOf needle (b :: bs) || containsSubAux needle bs

/-- Python's `needle in haystack` substring test. -/
def containsSub (hay needle : String) : Bool :=
  containsSubAux needle.toList hay.toList

/-- The per-model-family convenience defaults of main.py lines 73-83:
substring match on the lowercased model path adjusts `cacheV` and
`flashAttn` when they are outside the allowed set. -/
def applyModelDefaults (c : Config) : Config :=
  let mp := lowerStr c.modelPath
  if containsSub mp "qwen" then
    let c :=
      if (lowerStr c.cacheV ∈ ["auto", "f16", "q4_0", "q4_1", "q5_0", "q5_1", "q8_0"])
      then c else { c with cacheV := "auto" }
    if (lowerStr c.flashAttn ∈ ["auto", "1", "0"]) then c
    else { c with flashAttn := "auto" }
  else if containsSub mp "mistral" then
    let c :=
      if (lowerStr c.cacheV ∈ ["q8_0", "auto", "f16", "q4_0", "q4_1", "q5_0", "q5_1"])
      then c else { c with cacheV := "q8_0" }
    if (lowerStr c.flashAttn ∈ ["0", "auto", "1"]) then c
    else { c with flashAttn := "0" }
  else c

/-- The command line built at main.py lines 84-104. -/
def buildCmd (c : Config) : List String :=
  [c.llamaCppPath,
   "--model", c.modelPath,
   "--chat-template", c.chatTemplate,
   "--host", "127.0.0.1",
   "--port", toString c.port,
   "--ctx-size", toString c.ctxSize,
   "--batch-size", toString c.batchSize,
   "--ubatch-size", toString c.ubatchSize,
   "--parallel", toString c.parallel,
   "--threads", toString c.threads,
   "--n-gpu-layers", toString c.gpuLayers,
   "--cache-type-k", c.cacheK,
   "--cache-type-v", c.cacheV,
   "--temp", c.temp,
   "--top-k", c.topK,
   "--top-p", c.topP,
   "--repeat-penalty", c.repeatPen,
   "--mirostat", c.mirostat,
   "--flash-attn", c.flashAttn]

/-- A `subprocess.Popen` handle as the supervisor observes it: the pid and
whether `poll()` currently returns `None` (process alive). -/
structure ProcHandle where
  pid : Nat
  alive : Bool
deriving Repr, DecidableEq

/-- The module-global supervisor state of main.py lines 191-198:
`llama_process`, `current_model`, `last_used_config`, `last_start_error`
and `restart_fail_count`. -/
structure ServerState where
  llama_process : Option ProcHandle
  current_model : Option String
  last_used_config : Option String
  last_start_error : Option String
  restart_fail_count : Nat
deriving Repr, DecidableEq

/-- Externally visible side effects of the launcher and router. -/
inductive Event where
  | terminated (pid : Nat)
  | wroteLastErrorLog (msg : String)
  | spawned (pid : Nat) (cmd : List String)
  | fallbackInvoked (cfgPath : String) (modelOverride : Option String)
  | startCalled (cfgPath : String)
deriving Repr, DecidableEq

/-- One observation made by the readiness loop of main.py lines 127-137:
either `poll()` reports the child has exited, or the health `GET` yields a
status code (`none` models a raised exception / connection failure). -/
inductive PollObs where
  | exited
  | health (status : Option Nat)
deriving Repr, DecidableEq

/-- The readiness loop of main.py lines 127-137: up to 12 one-second
polls; break (not ready) as soon as the process has exited, ready on the
first HTTP 200.  Observations past the end of the list behave like failed
`GET`s.  Returns `(ready, aliveAfter)` where `aliveAfter` is whether
`poll()` still reports the child alive once the loop is over. -/
def readiness_loop : Nat → List PollObs → Bool × Bool
  | 0, _ => (false, true)
  | n + 1, [] => readiness_loop n []
  | _ + 1, .exited :: _ => (false, false)
  | n + 1, .health s :: rest =>
      if s = some 200 then (true, true) else readiness_loop n rest

/-- The environment a launch runs in: the configuration store, the GPU
query outcomes observed during the gate's window, the readiness
observations for the spawned process, the current `llama_stderr.log` tail,
the pid the OS will assign to the next spawn, and the fallback chain's
variant list (each variant paired with whether it reaches readiness). -/
structure Env where
  loadConfig : String → Config
  gpuQueries : List GpuQuery
  spawnPolls : List PollObs
  stderrTail : String
  nextPid : Nat
  fallbackVariants : List (Config × Bool)

/-- Modelled from the spec: `_attempt_start_with_fallbacks` is imported
from `llama_python_server.fallbacks` (main.py line 23), a module that is
not among the available sources.  Per spec section 4.3 the chain tries an
ordered list of configuration variants, each run through the same
spawn/readiness procedure as launcher steps 6-9 (updating
`activeProcess`/`activeModelPath`/`activeConfigRef`, clearing
`lastStartError` and resetting `restartFailCount` only on success),
stopping at the first success; on exhaustion it returns failure and leaves
`lastStartError` at the last variant's diagnostic.  A failed variant's
process is terminated before the next variant is tried. -/
def attempt_start_with_fallbacks (env : Env) (cfgPath : String)
    (modelOverride : Option String) (variants : List (Config × Bool))
    (st : ServerState) (pidBase : Nat) : Bool × ServerState × List Event :=
  match variants with
  | [] => (false, st, [])
  | (vcfg, vready) :: rest =>
    let vcfg := match modelOverride with
      | some m => { vcfg with modelPath := m }
      | none => vcfg
    let ev := Event.spawned pidBase (buildCmd vcfg)
    if vready then
      (true,
       { st with
          llama_process := some ⟨pidBase, true⟩
          current_model := some vcfg.modelPath
          last_used_config := some cfgPath
          last_start_error := none
          restart_fail_count := 0 },
       [ev])
    else
      let st' := { st with last_start_error := some env.stderrTail }
      let res := attempt_start_with_fallbacks env cfgPath modelOverride rest st' (pidBase + 1)
      (res.1, res.2.1, ev :: Event.terminated pidBase :: res.2.2)

/-- The in-memory model-path override of main.py lines 49-50. -/
def overrideModelPath (c : Config) : Option String → Config
  | some m => { c with modelPath := m }
  | none => c

/-- Main.py lines 51-57: if an active process is still alive, terminate
it (graceful wait, force-kill on timeout); otherwise do nothing.  Returns
the new state and the termination events. -/
def terminate_existing (st : ServerState) : ServerState × List Event :=
  match st.llama_process with
  | some p =>
    if p.alive then
      ({ st with llama_process := some { p with alive := false } },
       [Event.terminated p.pid])
    else (st, [])
  | none => (st, [])

/-- Main.py lines 72-160, after the GPU gate and the `gpuLayers` check
both pass: apply the model-family defaults, build the command line and
spawn, set `current_model` and `last_used_config` (lines 122-123, before
readiness is known), poll readiness; on readiness clear
`last_start_error` and zero `restart_fail_count` (lines 138-145);
otherwise record the stderr tail (lines 146-149), terminate the lingering
child (lines 150-155) and delegate to the fallback chain (line 156). -/
def spawn_and_poll (env : Env) (cfg_path : String) (config0 : Config)
    (model_path : Option String) (st : ServerState) :
    Bool × ServerState × List Event :=
  let config := applyModelDefaults config0
  let pid := env.nextPid
  let evs1 := [Event.spawned pid (buildCmd config)]
  let ra := readiness_loop 12 env.spawnPolls
  let st := { st with
    llama_process := some ⟨pid, ra.2⟩
    current_model := some config.modelPath
    last_used_config := some cfg_path }
  if ra.1 then
    (true, { st with last_start_error := none, restart_fail_count := 0 }, evs1)
  else
    let st := { st with last_start_error := some env.stderrTail }
    let evs2 := evs1 ++ [Event.wroteLastErrorLog env.stderrTail]
    let lingering := terminate_existing st
    let st := lingering.1
    let evs3 := evs2 ++ lingering.2 ++ [Event.fallbackInvoked cfg_path model_path]
    let fb := attempt_start_with_fallbacks env cfg_path model_path
      env.fallbackVariants st (pid + 1)
    (fb.1, fb.2.1, evs3 ++ fb.2.2)

/-- `start_llama_server` (main.py lines 44-160), the whole body of which
runs under `process_lock`.  Resolve the config (default `QWEN_CONFIG`),
apply the model override, terminate a still-alive previous process
(`terminate_existing`), run the GPU gate with its 30 s budget (lines
58-64), reject `gpuLayers <= 0` before any spawn (lines 65-71), then
spawn and poll (`spawn_and_poll`). -/
def start_llama_server (env : Env) (config_path : Option String)
    (model_path : Option String) (st : ServerState) :
    Bool × ServerState × List Event :=
  let cfg_path := config_path.getD QWEN_CONFIG
  let config := overrideModelPath (env.loadConfig cfg_path) model_path
  let t0 := terminate_existing st
  let st := t0.1
  let evs0 := t0.2
  if wait_for_gpu_free env.gpuQueries = false then
    (false,
     { st with last_start_error := some env.stderrTail },
     evs0 ++ [Event.wroteLastErrorLog env.stderrTail])
  else if config.gpuLayers ≤ 0 then
    (false,
     { st with last_start_error := some GPU_LAYERS_MSG },
     evs0 ++ [Event.wroteLastErrorLog GPU_LAYERS_MSG])
  else
    let r := spawn_and_poll env cfg_path config model_path st
    (r.1, r.2.1, evs0 ++ r.2.2)

/-- The pydantic `CompletionRequest` of main.py lines 204-209.  The
`temperature` field is kept opaque: it only flows into the dead payload of
lines 292-297 (see `completions`). -/
structure CompletionRequest where
  prompt : String
  n_predict : Option Nat
  temperature : Option String
  stop : Option (List String)
  model : Option String
deriving Repr, DecidableEq

/-- What `POST /v1/completions` hands back to the HTTP layer: a raised
`HTTPException` with its status and structured detail (a key/value
object), or the bare `None` the function body falls off the end with. -/
inductive CompletionOutcome where
  | httpError (status : Nat) (detail : List (String × String))
  | noContent
deriving Repr, DecidableEq

/-- The `model_map` lookup of main.py lines 262-268: lowercased request
model name to config path, defaulting to `QWEN_CONFIG`. -/
def model_map_lookup (m : Option String) : String :=
  let key := lowerStr (m.getD "")
  if key = "mistral" then MISTRAL_CONFIG
  else if key = "qwen" then QWEN_CONFIG
  else if key = "qwen2.5" then QWEN_CONFIG
  else if key = "qwen2.5-coder" then QWEN_CONFIG
  else QWEN_CONFIG

/-- The detail dict raised at main.py lines 276-280 when a model switch
fails (the Python `None` model value is rendered as "null"). -/
def startFailedDetail (m : Option String) : List (String × String) :=
  [("error", "model_start_failed"),
   ("model", match m with | some s => s | none => "null"),
   ("hint", "see /last_start_error and logs/last_start_error.log")]

/-- The detail dict raised at main.py lines 283-286 when no live backend
process exists; note it carries no "model" key. -/
def serverUnavailableDetail : List (String × String) :=
  [("error", "server_unavailable"),
   ("hint", "llama-server not running; check /last_start_error")]

/-- `completions` (main.py lines 255-297, `POST /v1/completions`).
Resolve the target config and its model path; if it differs from
`current_model`, call `start_llama_server` and raise 503 with
`startFailedDetail` on failure; then raise 503 with
`serverUnavailableDetail` unless a live process exists.  After these
checks the Python body (lines 288-297) builds the forwarding `url` and
`data` payload but never issues the HTTP POST and has no return
statement, so it falls off the end and returns `None`: this is modelled
by `CompletionOutcome.noContent` with no forwarding event. -/
def completions (env : Env) (req : CompletionRequest) (st : ServerState) :
    CompletionOutcome × ServerState × List Event :=
  let target_config := model_map_lookup req.model
  let target_model := (env.loadConfig target_config).modelPath
  let switched :=
    if st.current_model ≠ some target_model then
      let res := start_llama_server env (some target_config) none st
      (some res.1, res.2.1, Event.startCalled target_config :: res.2.2)
    else (none, st, ([] : List Event))
  match switched.1 with
  | some false => (.httpError 503 (startFailedDetail req.model), switched.2.1, switched.2.2)
  | _ =>
    let st' := switched.2.1
    let evs := switched.2.2
    match st'.llama_process with
    | some p =>
      if p.alive then
        -- main.py lines 288-297: url and data are constructed here but the
        -- function ends without performing the request or returning a value.
        (.noContent, st', evs)
      else (.httpError 503 serverUnavailableDetail, st', evs)
    | none => (.httpError 503 serverUnavailableDetail, st', evs)

/-- The increment of main.py line 356: `min(restart_fail_count + 1, 10)`. -/
def restartBump (n : Nat) : Nat := min (n + 1) 10

/-- The backoff of main.py line 357: `min(2 ** restart_fail_count, 60)`. -/
def backoffOf (n : Nat) : Nat := min (2 ^ n) 60

/-- The crash-monitor thread's view of the world: the shared supervisor
state plus the function-local `backoff` variable, which Python leaves
unbound (`none`) until the first assignment at main.py line 357. -/
structure MonState where
  st : ServerState
  backoff : Option Nat
deriving Repr, DecidableEq

/-- The two ways an iteration of `monitor_llama_process` fails to complete
normally: `time.sleep(backoff)` at line 360 raises `UnboundLocalError`
when no crash was ever detected, and the `start_llama_server` call at
line 364 re-acquires the non-reentrant `process_lock` already held by the
monitor (line 361), blocking the thread forever. -/
inductive MonError where
  | unboundLocalBackoff
  | deadlockOnRestart (cfgPath : String)
deriving Repr, DecidableEq

/-- One iteration of the `while True` loop of `monitor_llama_process`
(main.py lines 345-368).  After the 3 s sleep: under the lock, `continue`
if `llama_process is None`; if the process has exited, bump
`restart_fail_count` and set `backoff`.  Then `time.sleep(backoff)` runs
regardless of whether an exit was detected — an `UnboundLocalError` if
`backoff` was never assigned.  Finally, under the lock again, if
`last_used_config` is set the monitor calls `start_llama_server`, which
deadlocks on the non-reentrant lock.  A normal completion returns the new
state and the backoff slept (`none` when the iteration took the
`continue` path). -/
def monitor_iteration (ms : MonState) : Except MonError (MonState × Option Nat) :=
  match ms.st.llama_process with
  | none => .ok (ms, none)
  | some p =>
    let ms1 :=
      if p.alive then ms
      else
        let n := restartBump ms.st.restart_fail_count
        { ms with
            st := { ms.st with restart_fail_count := n }
            backoff := some (backoffOf n) }
    match ms1.backoff with
    | none => .error .unboundLocalBackoff
    | some b =>
      match ms1.st.last_used_config with
      | none => .ok (ms1, some b)
      | some cfg => .error (.deadlockOnRestart cfg)

/-!
Interleaving model for the mutual-exclusion claim.  Threads are the
concurrent request handlers (whose model switches call
`start_llama_server`) and the crash-monitor loop.  Each thread is a
straight-line sequence of atomic actions; `process_lock` is modelled by
an explicit lock owner and an `acquire` guard, so the monitor's nested
`with process_lock` (monitor holds the lock when `start_llama_server`
tries to take it again, main.py lines 361-364 and 46) simply never
becomes enabled: the faithful rendering of the non-reentrant deadlock.
-/

/-- Atomic actions of the supervisor threads.  `kill` terminates the
process named by the current handle (a no-op when it is already dead),
`spawn` creates a fresh live process and rebinds the handle, `write` is
any mutation of the remaining shared fields (`current_model`,
`last_used_config`, `last_start_error`, `restart_fail_count`), and
`sleep` is any blocking wait (GPU gate, readiness polls, backoff). -/
inductive Act where
  | acquire
  | release
  | kill
  | spawn
  | write
  | sleep
deriving Repr, DecidableEq

/-- A system configuration: the lock owner (a thread index), the list of
live backend process ids, the current process handle, a fresh-pid
counter, and each thread's remaining program. -/
structure Sys where
  lock : Option Nat
  alive : List Nat
  handle : Option Nat
  fresh : Nat
  thr : List (List Act)
deriving Repr, DecidableEq

/-- Effect of one action on the shared part of the configuration. -/
def applyAct : Act → Sys → Sys
  | .acquire, s => s
  | .release, s => { s with lock := none }
  | .kill, s => { s with alive := match s.handle with
      | some h => s.alive.erase h
      | none => s.alive }
  | .spawn, s => { s with
      alive := s.fresh :: s.alive
      handle := some s.fresh
      fresh := s.fresh + 1 }
  | .write, s => s
  | .sleep, s => s

/-- Guard of an action for thread `t`: `acquire` needs the lock free,
`release` needs `t` to hold it; everything else is always enabled. -/
def actGuard : Act → Nat → Sys → Prop
  | .acquire, _, s => s.lock = none
  | .release, t, s => s.lock = some t
  | _, _, _ => True

/-- Lock effect of an action performed by thread `t`. -/
def applyLock : Act → Nat → Sys → Sys
  | .acquire, t, s => { s with lock := some t }
  | _, _, s => s

/-- One interleaving step: some thread `t` whose program starts with `a`
executes `a` (if enabled) and drops it from its program. -/
inductive Step : Sys → Sys → Prop
  | mk (t : Nat) (a : Act) (rest : List Act) (s : Sys)
      (hthr : s.thr[t]? = some (a :: rest))
      (hg : actGuard a t s) :
      Step s { applyLock a t (applyAct a s) with
                 thr := s.thr.set t rest }

/-- Reachability under interleaving. -/
def Reach : Sys → Sys → Prop := Relation.ReflTransGen Step

/-- Lock-discipline check on a remaining program, tracking whether the
thread is inside a `with process_lock` region (`inSec`) and whether the
managed process is known dead since the last `kill` (`cleared`): outside
a region only `sleep` and `acquire` occur, inside one a `spawn` must be
preceded by a `kill`, and a nested `acquire` (the monitor's deadlock)
makes the rest of the program unreachable. -/
def wfActs : Bool → Bool → List Act → Bool
  | _, _, [] => true
  | false, _, .acquire :: r => wfActs true false r
  | false, _, .sleep :: r => wfActs false false r
  | false, _, .release :: _ => false
  | false, _, .kill :: _ => false
  | false, _, .spawn :: _ => false
  | false, _, .write :: _ => false
  | true, _, .acquire :: _ => true
  | true, _, .release :: r => wfActs false false r
  | true, _, .kill :: r => wfActs true true r
  | true, c, .spawn :: r => c && wfActs true false r
  | true, c, .write :: r => wfActs true c r
  | true, c, .sleep :: r => wfActs true c r

/-- Invariant condition on one thread's remaining program. -/
def threadOK (s : Sys) (t : Nat) (σ : List Act) : Prop :=
  if s.lock = some t then
    ∃ c, wfActs true c σ = true ∧ (c = true → s.alive = [])
  else wfActs false false σ = true

/-- The inductive invariant: the live-process list is empty or the
singleton named by the handle, and every thread's remaining program obeys
the lock discipline. -/
def Inv (s : Sys) : Prop :=
  (s.alive = [] ∨ ∃ h, s.handle = some h ∧ s.alive = [h]) ∧
  ∀ t σ, s.thr[t]? = some σ → threadOK s t σ

/-- The lock-protected body of `start_llama_server` as an action
sequence, indexed by the branch taken (main.py lines 44-160):
`gpuBusy`/`cfgInvalid` abort before any spawn; `ready` spawns, records
the model and config, polls and succeeds; `failFb vs` spawns, fails
readiness, terminates the child and walks the fallback chain, each
failed variant being killed before the next spawn. -/
def fbActs : List Bool → List Act
  | [] => []
  | true :: _ => [.spawn, .sleep, .write]
  | false :: rest => [.spawn, .sleep, .write, .kill] ++ fbActs rest

/-- Branch outcomes of one `start_llama_server` call. -/
inductive StartOutcome where
  | gpuBusy
  | cfgInvalid
  | ready
  | failFb (variants : List Bool)

/-- Action sequence of one `start_llama_server` call (acquire the lock,
terminate the previous process, wait on the GPU gate, then the branch;
the conditional terminate of lines 51-57 is the state-identity `kill`
when nothing is alive). -/
def startActs : StartOutcome → List Act
  | .gpuBusy => [.acquire, .kill, .sleep, .write, .release]
  | .cfgInvalid => [.acquire, .kill, .sleep, .write, .release]
  | .ready => [.acquire, .kill, .sleep, .spawn, .write, .write, .sleep, .write, .release]
  | .failFb vs =>
      [.acquire, .kill, .sleep, .spawn, .write, .write, .sleep, .write, .kill]
        ++ fbActs vs ++ [.release]

/-- Branch outcomes of one iteration of `monitor_llama_process`
(main.py lines 350-368). -/
inductive MonOutcome where
  | procNone
  | aliveNoBackoff
  | aliveBackoffNoCfg
  | aliveBackoffCfg (o : StartOutcome)
  | deadNoCfg
  | deadCfg (o : StartOutcome)

/-- Action sequence of the monitor loop for a given run of iteration
outcomes.  `procNone` is the `continue` path; the alive-process path with
no bound `backoff` dies of `UnboundLocalError` after releasing the lock
(so the thread's program ends); when `last_used_config` is set the
restart path calls `start_llama_server` while still holding the lock, and
its leading nested `acquire` never becomes enabled (the deadlock), so no
later iteration exists. -/
def monitorActs : List MonOutcome → List Act
  | [] => []
  | .procNone :: rest => [.sleep, .acquire, .release] ++ monitorActs rest
  | .aliveNoBackoff :: _ => [.sleep, .acquire, .release]
  | .aliveBackoffNoCfg :: rest =>
      [.sleep, .acquire, .release, .sleep, .acquire, .release] ++ monitorActs rest
  | .aliveBackoffCfg o :: _ =>
      [.sleep, .acquire, .release, .sleep, .acquire] ++ startActs o
  | .deadNoCfg :: rest =>
      [.sleep, .acquire, .write, .release, .sleep, .acquire, .release] ++ monitorActs rest
  | .deadCfg o :: _ =>
      [.sleep, .acquire, .write, .release, .sleep, .acquire] ++ startActs o

/-- The programs the supervisor's threads actually run: a request-driven
model switch or the initial lifespan launch (one `start_llama_server`
call), the crash-monitor loop, or a request handler that needs no switch
and touches no shared state. -/
inductive ProgOfCode : List Act → Prop
  | start (o : StartOutcome) : ProgOfCode (startActs o)
  | monitor (os : List MonOutcome) : ProgOfCode (monitorActs os)
  | idle : ProgOfCode []

/-- Initial configuration at supervisor start: lock free, no process, and
the given thread programs. -/
def initSys (ts : List (List Act)) : Sys :=
  { lock := none, alive := [], handle := none, fresh := 0, thr := ts }

theorem threadOK_holder {s : Sys} {t : Nat} {σ : List Act} (h : s.lock = some t) :
    threadOK s t σ ↔ ∃ c, wfActs true c σ = true ∧ (c = true → s.alive = []) := by
  simp [threadOK, h]

theorem threadOK_other {s : Sys} {t : Nat} {σ : List Act} (h : ¬s.lock = some t) :
    threadOK s t σ ↔ wfActs false false σ = true := by
  simp [threadOK, h]

theorem lt_length_of_getElem? {α : Type} {l : List α} {i : Nat} {x : α}
    (h : l[i]? = some x) : i < l.length := by
  by_contra hlt
  rw [List.getElem?_eq_none (Nat.le_of_not_lt hlt)] at h
  exact Option.noConfusion h

/-- Every fallback-chain suffix is lock-disciplined once the failed main
spawn has been killed. -/
theorem wfActs_fb (vs : List Bool) :
    wfActs true true (fbActs vs ++ [Act.release]) = true := by
  induction vs with
  | nil => rfl
  | cons b rest ih =>
    cases b with
    | false => simpa [fbActs, wfActs] using ih
    | true => rfl

/-- Every `start_llama_server` branch is lock-disciplined. -/
theorem wfActs_start (o : StartOutcome) :
    wfActs false false (startActs o) = true := by
  cases o with
  | gpuBusy => rfl
  | cfgInvalid => rfl
  | ready => rfl
  | failFb vs => simpa [startActs, wfActs] using wfActs_fb vs

/-- Every monitor run is lock-disciplined. -/
theorem wfActs_monitor (os : List MonOutcome) :
    wfActs false false (monitorActs os) = true := by
  induction os with
  | nil => rfl
  | cons o rest ih =>
    cases o with
    | procNone => simpa [monitorActs, wfActs] using ih
    | aliveNoBackoff => rfl
    | aliveBackoffNoCfg => simpa [monitorActs, wfActs] using ih
    | aliveBackoffCfg o0 => cases o0 <;> rfl
    | deadNoCfg => simpa [monitorActs, wfActs] using ih
    | deadCfg o0 => cases o0 <;> rfl

/-- The invariant is preserved by every interleaving step. -/
theorem inv_step {s s' : Sys} (hs : Inv s) (h : Step s s') : Inv s' := by
  obtain ⟨haliveOK, hthr⟩ := hs
  cases h with
  | mk t a rest s hthrT hg =>
    have htlen : t < s.thr.length := lt_length_of_getElem? hthrT
    have hT := hthr t _ hthrT
    cases a with
    | acquire =>
      simp only [actGuard] at hg
      rw [threadOK_other (by simp [hg])] at hT
      simp only [wfActs] at hT
      refine ⟨by simpa [applyAct, applyLock] using haliveOK, ?_⟩
      intro t' σ' hσ'
      simp only [applyAct, applyLock] at hσ' ⊢
      by_cases ht' : t' = t
      · subst ht'
        rw [List.getElem?_set_self htlen] at hσ'
        cases hσ'
        rw [threadOK_holder (by simp)]
        exact ⟨false, hT, by simp⟩
      · rw [List.getElem?_set_ne (fun hh => ht' hh.symm)] at hσ'
        have hold := hthr t' _ hσ'
        rw [threadOK_other (by simp [hg])] at hold
        rw [threadOK_other (by simp [Ne.symm ht'])]
        exact hold
    | release =>
      simp only [actGuard] at hg
      rw [threadOK_holder hg] at hT
      obtain ⟨c, hwf, -⟩ := hT
      simp only [wfActs] at hwf
      refine ⟨by simpa [applyAct, applyLock] using haliveOK, ?_⟩
      intro t' σ' hσ'
      simp only [applyAct, applyLock] at hσ' ⊢
      by_cases ht' : t' = t
      · subst ht'
        rw [List.getElem?_set_self htlen] at hσ'
        cases hσ'
        rw [threadOK_other (by simp)]
        exact hwf
      · rw [List.getElem?_set_ne (fun hh => ht' hh.symm)] at hσ'
        have hold := hthr t' _ hσ'
        rw [threadOK_other (by rw [hg]; simp [Ne.symm ht'])] at hold
        rw [threadOK_other (by simp)]
        exact hold
    | kill =>
      by_cases hl : s.lock = some t
      · rw [threadOK_holder hl] at hT
        obtain ⟨c, hwf, -⟩ := hT
        simp only [wfActs] at hwf
        have halive' : (match s.handle with
            | some h => s.alive.erase h
            | none => s.alive) = [] := by
          rcases haliveOK with h0 | ⟨h, hh, h1⟩
          · rw [h0]; cases s.handle <;> simp
          · rw [hh, h1]; simp
        refine ⟨?_, ?_⟩
        · exact Or.inl (by simpa [applyAct, applyLock] using halive')
        · intro t' σ' hσ'
          simp only [applyAct, applyLock] at hσ' ⊢
          by_cases ht' : t' = t
          · subst ht'
            rw [List.getElem?_set_self htlen] at hσ'
            cases hσ'
            rw [threadOK_holder (by simpa using hl)]
            exact ⟨true, hwf, fun _ => by simpa using halive'⟩
          · rw [List.getElem?_set_ne (fun hh => ht' hh.symm)] at hσ'
            have hold := hthr t' _ hσ'
            rw [threadOK_other (by rw [hl]; simp [Ne.symm ht'])] at hold
            rw [threadOK_other (by simpa [hl] using (by simp [Ne.symm ht'] : ¬(some t = some t')))]
            exact hold
      · rw [threadOK_other hl] at hT
        simp [wfActs] at hT
    | spawn =>
      by_cases hl : s.lock = some t
      · rw [threadOK_holder hl] at hT
        obtain ⟨c, hwf, hc⟩ := hT
        simp only [wfActs, Bool.and_eq_true] at hwf
        obtain ⟨hctrue, hwf⟩ := hwf
        have halive : s.alive = [] := hc hctrue
        refine ⟨?_, ?_⟩
        · exact Or.inr ⟨s.fresh, by simp [applyAct, applyLock], by
            simp [applyAct, applyLock, halive]⟩
        · intro t' σ' hσ'
          simp only [applyAct, applyLock] at hσ' ⊢
          by_cases ht' : t' = t
          · subst ht'
            rw [List.getElem?_set_self htlen] at hσ'
            cases hσ'
            rw [threadOK_holder (by simpa using hl)]
            exact ⟨false, hwf, by simp⟩
          · rw [List.getElem?_set_ne (fun hh => ht' hh.symm)] at hσ'
            have hold := hthr t' _ hσ'
            rw [threadOK_other (by rw [hl]; simp [Ne.symm ht'])] at hold
            rw [threadOK_other (by simpa [hl] using (by simp [Ne.symm ht'] : ¬(some t = some t')))]
            exact hold
      · rw [threadOK_other hl] at hT
        simp [wfActs] at hT
    | write =>
      by_cases hl : s.lock = some t
      · rw [threadOK_holder hl] at hT
        obtain ⟨c, hwf, hc⟩ := hT
        simp only [wfActs] at hwf
        refine ⟨by simpa [applyAct, applyLock] using haliveOK, ?_⟩
        intro t' σ' hσ'
        simp only [applyAct, applyLock] at hσ' ⊢
        by_cases ht' : t' = t
        · subst ht'
          rw [List.getElem?_set_self htlen] at hσ'
          cases hσ'
          rw [threadOK_holder (by simpa using hl)]
          exact ⟨c, hwf, hc⟩
        · rw [List.getElem?_set_ne (fun hh => ht' hh.symm)] at hσ'
          have hold := hthr t' _ hσ'
          rw [threadOK_other (by rw [hl]; simp [Ne.symm ht'])] at hold
          rw [threadOK_other (by simpa [hl] using (by simp [Ne.symm ht'] : ¬(some t = some t')))]
          exact hold
      · rw [threadOK_other hl] at hT
        simp [wfActs] at hT
    | sleep =>
      refine ⟨by simpa [applyAct, applyLock] using haliveOK, ?_⟩
      intro t' σ' hσ'
      simp only [applyAct, applyLock] at hσ' ⊢
      by_cases ht' : t' = t
      · subst ht'
        rw [List.getElem?_set_self htlen] at hσ'
        cases hσ'
        by_cases hl : s.lock = some t'
        · rw [threadOK_holder hl] at hT
          obtain ⟨c, hwf, hc⟩ := hT
          simp only [wfActs] at hwf
          rw [threadOK_holder (by simpa using hl)]
          exact ⟨c, hwf, hc⟩
        · rw [threadOK_other hl] at hT
          simp only [wfActs] at hT
          rw [threadOK_other (by simpa using hl)]
          exact hT
      · rw [List.getElem?_set_ne (fun hh => ht' hh.symm)] at hσ'
        have hold := hthr t' _ hσ'
        by_cases hl : s.lock = some t'
        · rw [threadOK_holder hl] at hold
          rw [threadOK_holder (by simpa using hl)]
          exact hold
        · rw [threadOK_other hl] at hold
          rw [threadOK_other (by simpa using hl)]
          exact hold

/-- The invariant holds initially for lock-disciplined thread programs. -/
theorem inv_init (ts : List (List Act))
    (hts : ∀ p ∈ ts, wfActs false false p = true) : Inv (initSys ts) := by
  refine ⟨Or.inl rfl, ?_⟩
  intro t σ hσ
  rw [threadOK_other (by simp [initSys])]
  exact hts σ (List.getElem?_mem hσ)

/-- The invariant holds at every reachable configuration. -/
theorem inv_reach {s c : Sys} (hinv : Inv s) (h : Reach s c) : Inv c := by
  induction h with
  | refl => exact hinv
  | tail _ hstep ih => exact inv_step ih hstep

/-! Helper lemmas about the launcher. -/

theorem terminate_existing_fields (st : ServerState) :
    (terminate_existing st).1.current_model = st.current_model ∧
    (terminate_existing st).1.last_used_config = st.last_used_config ∧
    (terminate_existing st).1.last_start_error = st.last_start_error ∧
    (terminate_existing st).1.restart_fail_count = st.restart_fail_count := by
  unfold terminate_existing
  cases st.llama_process with
  | none => exact ⟨rfl, rfl, rfl, rfl⟩
  | some p =>
    by_cases hp : p.alive <;> simp [hp]

theorem terminate_existing_evs (st : ServerState) :
    (terminate_existing st).2 = [] ∨
    ∃ pid, (terminate_existing st).2 = [Event.terminated pid] := by
  unfold terminate_existing
  cases st.llama_process with
  | none => exact Or.inl rfl
  | some p =>
    by_cases hp : p.alive
    · exact Or.inr ⟨p.pid, by simp [hp]⟩
    · exact Or.inl (by simp [hp])

/-- A fallback-chain success resets `restart_fail_count` to zero
(spec section 4.2 step 9 applied by every variant). -/
theorem fallback_success_resets (env : Env) (cfgPath : String)
    (mo : Option String) (vs : List (Config × Bool)) (st : ServerState)
    (pidBase : Nat)
    (h : (attempt_start_with_fallbacks env cfgPath mo vs st pidBase).1 = true) :
    (attempt_start_with_fallbacks env cfgPath mo vs st pidBase).2.1.restart_fail_count = 0 := by
  induction vs generalizing st pidBase with
  | nil => simp [attempt_start_with_fallbacks] at h
  | cons v rest ih =>
    obtain ⟨vcfg, vready⟩ := v
    cases vready with
    | true => rfl
    | false =>
      simp only [attempt_start_with_fallbacks] at h ⊢
      exact ih _ _ h

/-- A successful `spawn_and_poll` leaves `restart_fail_count` at zero. -/
theorem spawn_and_poll_success_resets (env : Env) (cfg_path : String)
    (config0 : Config) (mp : Option String) (st : ServerState)
    (h : (spawn_and_poll env cfg_path config0 mp st).1 = true) :
    (spawn_and_poll env cfg_path config0 mp st).2.1.restart_fail_count = 0 := by
  unfold spawn_and_poll at h ⊢
  by_cases hr : (readiness_loop 12 env.spawnPolls).1
  · simp [hr]
  · simp only [hr, if_neg, Bool.false_eq_true, if_false] at h ⊢
    exact fallback_success_resets _ _ _ _ _ _ h

/-- A launch that fails readiness with an empty fallback chain returns
false with `current_model`/`last_used_config` pointing at the attempted
configuration. -/
theorem spawn_and_poll_fail_fields (env : Env) (cfg_path : String)
    (config0 : Config) (mp : Option String) (st : ServerState)
    (hready : (readiness_loop 12 env.spawnPolls).1 = false)
    (hfb : env.fallbackVariants = []) :
    (spawn_and_poll env cfg_path config0 mp st).1 = false ∧
    (spawn_and_poll env cfg_path config0 mp st).2.1.current_model
      = some (applyModelDefaults config0).modelPath ∧
    (spawn_and_poll env cfg_path config0 mp st).2.1.last_used_config
      = some cfg_path := by
  unfold spawn_and_poll
  rw [if_neg (by simp [hready])]
  simp only [hfb, attempt_start_with_fallbacks]
  refine ⟨trivial, ?_, ?_⟩
  · rw [(terminate_existing_fields _).1]
  · rw [(terminate_existing_fields _).2.1]

/-- A launch that passes readiness returns true, clears the error and
resets the counter. -/
theorem spawn_and_poll_success_fields (env : Env) (cfg_path : String)
    (config0 : Config) (mp : Option String) (st : ServerState)
    (hready : (readiness_loop 12 env.spawnPolls).1 = true) :
    (spawn_and_poll env cfg_path config0 mp st).1 = true ∧
    (spawn_and_poll env cfg_path config0 mp st).2.1.last_start_error = none ∧
    (spawn_and_poll env cfg_path config0 mp st).2.1.restart_fail_count = 0 := by
  unfold spawn_and_poll
  rw [if_pos hready]
  exact ⟨rfl, rfl, rfl⟩

/-- A successful launch (direct or through the fallback chain) leaves
`restart_fail_count` at zero. -/
theorem start_success_resets (env : Env) (cp mp : Option String)
    (st : ServerState)
    (h : (start_llama_server env cp mp st).1 = true) :
    (start_llama_server env cp mp st).2.1.restart_fail_count = 0 := by
  unfold start_llama_server at h ⊢
  by_cases hg : wait_for_gpu_free env.gpuQueries = false
  · simp [hg] at h
  · by_cases hl :
      (overrideModelPath (env.loadConfig (cp.getD QWEN_CONFIG)) mp).gpuLayers ≤ 0
    · simp [hg, hl] at h
    · simp only [hg, hl, if_neg, if_false] at h ⊢
      exact spawn_and_poll_success_resets _ _ _ _ _ h

/-- `restart_fail_count` reaches exactly `N` after `N` increments from a
healthy start, for `N ≤ 10`. -/
theorem restartBump_iterate (N : Nat) (h : N ≤ 10) :
    restartBump^[N] 0 = N := by
  induction N with
  | zero => rfl
  | succ n ih =>
    rw [Function.iterate_succ_apply', ih (Nat.le_of_succ_le h)]
    unfold restartBump
    omega

/-! Concrete fixtures used by witnesses and counterexamples. -/

/-- A representative healthy configuration. -/
def demoConfig : Config :=
  { llamaCppPath := "/opt/llama/llama-server"
    modelPath := "qwen2.5-7b.gguf"
    chatTemplate := "chatml"
    port := 8081
    ctxSize := 8192
    batchSize := 512
    ubatchSize := 128
    parallel := 1
    threads := 8
    gpuLayers := 99
    cacheK := "q8_0"
    cacheV := "q8_0"
    temp := "0.7"
    topK := "40"
    topP := "0.9"
    repeatPen := "1.1"
    mirostat := "0"
    flashAttn := "auto"
    nPredict := 200 }

/-- Environment with a free GPU, a healthy config and an alive backend;
no spawn is ever consulted by the router in this state. -/
def envReady : Env :=
  { loadConfig := fun _ => demoConfig
    gpuQueries := [GpuQuery.ok []]
    spawnPolls := [PollObs.health (some 200)]
    stderrTail := "tail"
    nextPid := 11
    fallbackVariants := [] }

/-- Supervisor state with the qwen model active and its process alive. -/
def stReady : ServerState :=
  { llama_process := some ⟨7, true⟩
    current_model := some demoConfig.modelPath
    last_used_config := some QWEN_CONFIG
    last_start_error := none
    restart_fail_count := 0 }

/-! Claim C5: GPU gate behaviour. -/

/-- C5: `_wait_for_gpu_free` returns true as soon as a poll of the GPU
accounting query reports no compute processes, returns false when every
poll within the timeout window reports processes, and `_gpu_processes`
maps both a missing accounting tool (`FileNotFoundError`) and any other
query failure to the empty list, so such polls count as a free GPU. -/
theorem gpu_gate_behavior :
    (∀ q qs, gpu_processes q = [] → wait_for_gpu_free (q :: qs) = true) ∧
    (∀ qs, (∀ q ∈ qs, gpu_processes q ≠ []) → wait_for_gpu_free qs = false) ∧
    gpu_processes GpuQuery.errNotFound = [] ∧
    gpu_processes GpuQuery.errOther = [] ∧
    (∀ qs, wait_for_gpu_free (GpuQuery.errNotFound :: qs) = true) ∧
    (∀ qs, wait_for_gpu_free (GpuQuery.errOther :: qs) = true) := by
  refine ⟨?_, ?_, rfl, rfl, fun qs => rfl, fun qs => rfl⟩
  · intro q qs hq
    simp [wait_for_gpu_free, hq]
  · intro qs hqs
    induction qs with
    | nil => rfl
    | cons q rest ih =>
      have hq := hqs q (List.mem_cons_self q rest)
      rw [wait_for_gpu_free, if_neg (by simpa [List.isEmpty_iff] using hq)]
      exact ih fun q' hq' => hqs q' (List.mem_cons_of_mem _ hq')

/-- Witness for C5: a window that only ever reports a compute process
yields false; a window whose first query hits a missing tool yields
true. -/
theorem gpu_gate_behavior_witness :
    wait_for_gpu_free [GpuQuery.ok [⟨1234, "python", 512⟩]] = false ∧
    wait_for_gpu_free [GpuQuery.errNotFound] = true :=
  ⟨gpu_gate_behavior.2.1 _ (by intro q hq; simp at hq; subst hq; decide),
   gpu_gate_behavior.2.2.2.2.1 []⟩

/-! Claim C6: configuration rejection. -/

/-- C6: once the GPU gate passes, a configuration with `gpuLayers <= 0`
makes `start_llama_server` record the configuration-error message in
`last_start_error` and the diagnostics file and return false; no process
is spawned and the fallback chain is never invoked. -/
theorem config_rejection (env : Env) (cp mp : Option String) (st : ServerState)
    (hfree : wait_for_gpu_free env.gpuQueries = true)
    (hlayers : (env.loadConfig (cp.getD QWEN_CONFIG)).gpuLayers ≤ 0) :
    (start_llama_server env cp mp st).1 = false ∧
    (start_llama_server env cp mp st).2.1.last_start_error = some GPU_LAYERS_MSG ∧
    Event.wroteLastErrorLog GPU_LAYERS_MSG ∈ (start_llama_server env cp mp st).2.2 ∧
    (∀ pid cmd, Event.spawned pid cmd ∉ (start_llama_server env cp mp st).2.2) ∧
    (∀ c m, Event.fallbackInvoked c m ∉ (start_llama_server env cp mp st).2.2) := by
  have hlayers' :
      (overrideModelPath (env.loadConfig (cp.getD QWEN_CONFIG)) mp).gpuLayers ≤ 0 := by
    cases mp <;> simpa [overrideModelPath] using hlayers
  have hfree' : ¬wait_for_gpu_free env.gpuQueries = false := by simp [hfree]
  unfold start_llama_server
  rw [if_neg hfree', if_pos hlayers']
  refine ⟨rfl, rfl, ?_, ?_, ?_⟩
  · simp
  · intro pid cmd
    rcases terminate_existing_evs st with h0 | ⟨p0, h0⟩ <;> simp [h0]
  · intro c m
    rcases terminate_existing_evs st with h0 | ⟨p0, h0⟩ <;> simp [h0]

/-- Environment whose configuration requests zero GPU layers. -/
def envC6 : Env :=
  { loadConfig := fun _ => { demoConfig with gpuLayers := 0 }
    gpuQueries := [GpuQuery.ok []]
    spawnPolls := []
    stderrTail := "tail6"
    nextPid := 3
    fallbackVariants := [] }

/-- Empty supervisor state (process never spawned). -/
def stEmpty : ServerState :=
  { llama_process := none
    current_model := none
    last_used_config := none
    last_start_error := none
    restart_fail_count := 0 }

/-- Witness for C6 at a concrete zero-layer configuration. -/
theorem config_rejection_witness :
    (start_llama_server envC6 none none stEmpty).1 = false ∧
    (start_llama_server envC6 none none stEmpty).2.1.last_start_error
      = some GPU_LAYERS_MSG :=
  ⟨(config_rejection envC6 none none stEmpty rfl (by decide)).1,
   (config_rejection envC6 none none stEmpty rfl (by decide)).2.1⟩

/-! Claim C7: GPU-gate honesty. -/

/-- C7: when the GPU gate reports busy throughout its 30-second budget,
`start_llama_server` records a diagnostic (into `last_start_error` and
the diagnostics file) and returns false, and no process spawn occurs
during the call. -/
theorem gpu_gate_honesty (env : Env) (cp mp : Option String) (st : ServerState)
    (hbusy : wait_for_gpu_free env.gpuQueries = false) :
    (start_llama_server env cp mp st).1 = false ∧
    (start_llama_server env cp mp st).2.1.last_start_error = some env.stderrTail ∧
    Event.wroteLastErrorLog env.stderrTail ∈ (start_llama_server env cp mp st).2.2 ∧
    (∀ pid cmd, Event.spawned pid cmd ∉ (start_llama_server env cp mp st).2.2) ∧
    (∀ c m, Event.fallbackInvoked c m ∉ (start_llama_server env cp mp st).2.2) := by
  unfold start_llama_server
  rw [if_pos hbusy]
  refine ⟨rfl, rfl, ?_, ?_, ?_⟩
  · simp
  · intro pid cmd
    rcases terminate_existing_evs st with h0 | ⟨p0, h0⟩ <;> simp [h0]
  · intro c m
    rcases terminate_existing_evs st with h0 | ⟨p0, h0⟩ <;> simp [h0]

/-- Environment whose GPU stays busy for the whole window. -/
def envC7 : Env :=
  { loadConfig := fun _ => demoConfig
    gpuQueries := [GpuQuery.ok [⟨321, "other-training", 20480⟩]]
    spawnPolls := []
    stderrTail := "tail7"
    nextPid := 4
    fallbackVariants := [] }

/-- Witness for C7 at a concrete busy GPU. -/
theorem gpu_gate_honesty_witness :
    (start_llama_server envC7 none none stEmpty).1 = false ∧
    (start_llama_server envC7 none none stEmpty).2.1.last_start_error
      = some envC7.stderrTail :=
  ⟨(gpu_gate_honesty envC7 none none stEmpty rfl).1,
   (gpu_gate_honesty envC7 none none stEmpty rfl).2.1⟩

/-! Claim C2: when the launcher updates `current_model` and
`last_used_config`. -/

/-- Environment in which the spawned process never answers its health
check and the fallback chain is empty. -/
def envC2 : Env :=
  { loadConfig := fun _ => { demoConfig with modelPath := "new-model.gguf" }
    gpuQueries := [GpuQuery.ok []]
    spawnPolls := [PollObs.health none]
    stderrTail := "spawn log tail"
    nextPid := 42
    fallbackVariants := [] }

/-- State in which an older model was successfully active before. -/
def stC2 : ServerState :=
  { llama_process := none
    current_model := some "old-model.gguf"
    last_used_config := some "old-config.json"
    last_start_error := none
    restart_fail_count := 4 }

/-- Counterexample to C2 as stated: a `start_llama_server` call that
spawns, fails readiness and exhausts its fallback chain returns false,
yet `current_model` and `last_used_config` no longer equal their values
before the call — they were overwritten at spawn time (main.py lines
122-123), so `last_used_config` now names a configuration that never
successfully started. -/
theorem start_overwrites_state_despite_failure :
    (start_llama_server envC2 none none stC2).1 = false ∧
    (start_llama_server envC2 none none stC2).2.1.current_model
      = some "new-model.gguf" ∧
    (start_llama_server envC2 none none stC2).2.1.last_used_config
      = some QWEN_CONFIG ∧
    stC2.current_model = some "old-model.gguf" ∧
    stC2.last_used_config = some "old-config.json" :=
  ⟨rfl, rfl, rfl, rfl, rfl⟩

/-- C2 amended: `current_model` and `last_used_config` are left
unchanged by launches that abort before the spawn (GPU busy, or
`gpuLayers <= 0`), but any launch that reaches the spawn overwrites them
with the attempted configuration even if it ultimately fails (readiness
timeout with an exhausted fallback chain).  On a direct success the
launcher clears `last_start_error` and resets `restart_fail_count`, and
every successful launch (fallbacks included) resets the counter. -/
theorem start_state_update_discipline (env : Env) (cp mp : Option String)
    (st : ServerState) :
    (wait_for_gpu_free env.gpuQueries = false →
      (start_llama_server env cp mp st).2.1.current_model = st.current_model ∧
      (start_llama_server env cp mp st).2.1.last_used_config = st.last_used_config) ∧
    (wait_for_gpu_free env.gpuQueries = true →
      (overrideModelPath (env.loadConfig (cp.getD QWEN_CONFIG)) mp).gpuLayers ≤ 0 →
      (start_llama_server env cp mp st).2.1.current_model = st.current_model ∧
      (start_llama_server env cp mp st).2.1.last_used_config = st.last_used_config) ∧
    (wait_for_gpu_free env.gpuQueries = true →
      0 < (overrideModelPath (env.loadConfig (cp.getD QWEN_CONFIG)) mp).gpuLayers →
      (readiness_loop 12 env.spawnPolls).1 = false →
      env.fallbackVariants = [] →
      (start_llama_server env cp mp st).1 = false ∧
      (start_llama_server env cp mp st).2.1.current_model =
        some (applyModelDefaults
          (overrideModelPath (env.loadConfig (cp.getD QWEN_CONFIG)) mp)).modelPath ∧
      (start_llama_server env cp mp st).2.1.last_used_config
        = some (cp.getD QWEN_CONFIG)) ∧
    (wait_for_gpu_free env.gpuQueries = true →
      0 < (overrideModelPath (env.loadConfig (cp.getD QWEN_CONFIG)) mp).gpuLayers →
      (readiness_loop 12 env.spawnPolls).1 = true →
      (start_llama_server env cp mp st).1 = true ∧
      (start_llama_server env cp mp st).2.1.last_start_error = none ∧
      (start_llama_server env cp mp st).2.1.restart_fail_count = 0) ∧
    ((start_llama_server env cp mp st).1 = true →
      (start_llama_server env cp mp st).2.1.restart_fail_count = 0) := by
  refine ⟨?_, ?_, ?_, ?_, start_success_resets env cp mp st⟩
  · intro hbusy
    unfold start_llama_server
    rw [if_pos hbusy]
    exact ⟨(terminate_existing_fields st).1, (terminate_existing_fields st).2.1⟩
  · intro hfree hlay
    unfold start_llama_server
    rw [if_neg (by simp [hfree]), if_pos hlay]
    exact ⟨(terminate_existing_fields st).1, (terminate_existing_fields st).2.1⟩
  · intro hfree hlay hready hfb
    have h := spawn_and_poll_fail_fields env (cp.getD QWEN_CONFIG)
      (overrideModelPath (env.loadConfig (cp.getD QWEN_CONFIG)) mp)
      mp (terminate_existing st).1 hready hfb
    unfold start_llama_server
    rw [if_neg (by simp [hfree]), if_neg (by omega)]
    exact ⟨h.1, h.2.1, h.2.2⟩
  · intro hfree hlay hready
    have h := spawn_and_poll_success_fields env (cp.getD QWEN_CONFIG)
      (overrideModelPath (env.loadConfig (cp.getD QWEN_CONFIG)) mp)
      mp (terminate_existing st).1 hready
    unfold start_llama_server
    rw [if_neg (by simp [hfree]), if_neg (by omega)]
    exact ⟨h.1, h.2.1, h.2.2⟩

/-- Witness for C2's amended discipline at the concrete failing launch. -/
theorem start_state_update_discipline_witness :
    (start_llama_server envC2 none none stC2).1 = false ∧
    (start_llama_server envC2 none none stC2).2.1.last_used_config
      = some QWEN_CONFIG :=
  ⟨((start_state_update_discipline envC2 none none stC2).2.2.1 rfl (by decide) rfl rfl).1,
   ((start_state_update_discipline envC2 none none stC2).2.2.1 rfl (by decide) rfl rfl).2.2⟩

/-! Claim C4: crash counter and backoff schedule. -/

/-- State of a crashed backend whose monitor has no stored config (so
an iteration completes normally after computing the backoff). -/
def deadNoCfgState (n : Nat) (b : Option Nat) : MonState :=
  { st := { llama_process := some ⟨13, false⟩
            current_model := some "m"
            last_used_config := none
            last_start_error := none
            restart_fail_count := n }
    backoff := b }

/-- C4: after `N` consecutive detected crashes (1 ≤ N ≤ 10) the
counter equals `N` and the computed wait is `min(2^N, 60)` seconds; the
incremented counter never exceeds 10; one crash-detection step of
`monitor_iteration` performs exactly this update and sleeps exactly this
backoff; and any successful `start_llama_server` resets the counter to
zero, so the next post-crash wait is again the `N = 1` value
`min(2^1, 60) = 2`. -/
theorem crash_backoff_schedule (N : Nat) (_h1 : 1 ≤ N) (h2 : N ≤ 10) :
    restartBump^[N] 0 = N ∧
    backoffOf (restartBump^[N] 0) = min (2 ^ N) 60 ∧
    (∀ n, restartBump n ≤ 10) ∧
    (∀ n b, monitor_iteration (deadNoCfgState n b) =
      .ok (deadNoCfgState (restartBump n) (some (backoffOf (restartBump n))),
           some (backoffOf (restartBump n)))) ∧
    (∀ env cp mp st, (start_llama_server env cp mp st).1 = true →
      (start_llama_server env cp mp st).2.1.restart_fail_count = 0) ∧
    backoffOf (restartBump 0) = 2 := by
  refine ⟨restartBump_iterate N h2, ?_, ?_, ?_, ?_, rfl⟩
  · rw [restartBump_iterate N h2]
    rfl
  · intro n
    unfold restartBump
    omega
  · intro n b
    rfl
  · intro env cp mp st h
    exact start_success_resets env cp mp st h

/-- Witness for C4 at N = 7 (where the 60 s cap bites: 2^7 = 128). -/
theorem crash_backoff_schedule_witness :
    restartBump^[7] 0 = 7 ∧
    backoffOf (restartBump^[7] 0) = min (2 ^ 7) 60 :=
  ⟨(crash_backoff_schedule 7 (by decide) (by decide)).1,
   (crash_backoff_schedule 7 (by decide) (by decide)).2.1⟩

/-! Claim C1: what the completion endpoint returns when the backend is
ready. -/

/-- A well-formed completion request for the already-active qwen model. -/
def reqQwen : CompletionRequest :=
  { prompt := "Hello"
    n_predict := some 64
    temperature := none
    stop := none
    model := some "qwen" }

/-- C1 (code bug): with the qwen model already current and its backend
process alive, `POST /v1/completions` performs no switch, contacts no
backend (the event trace is empty) and yields the Python `None`
fallthrough (`noContent`) instead of a relayed backend response —
main.py lines 288-297 build `url` and `data` for the forward but never
issue the POST, and the function has no return statement. -/
theorem completions_never_forwards :
    completions envReady reqQwen stReady
      = (CompletionOutcome.noContent, stReady, []) ∧
    stReady.current_model
      = some ((envReady.loadConfig (model_map_lookup reqQwen.model)).modelPath) ∧
    stReady.llama_process = some ⟨7, true⟩ :=
  ⟨rfl, rfl, rfl⟩

/-! Claim C9: the request path on a dead backend. -/

/-- State where the qwen model is current but its process has exited. -/
def stDeadQwen : ServerState :=
  { llama_process := some ⟨7, false⟩
    current_model := some demoConfig.modelPath
    last_used_config := some QWEN_CONFIG
    last_start_error := some "old tail"
    restart_fail_count := 2 }

/-- Counterexample to C9 as stated: the 503 raised when the target model
is already current but the process has exited is structured and points
at the diagnostics, but carries no key naming the target model. -/
theorem completions_unavailable_error_lacks_model :
    completions envReady reqQwen stDeadQwen
      = (CompletionOutcome.httpError 503 serverUnavailableDetail, stDeadQwen, []) ∧
    (∀ v, ("model", v) ∉ serverUnavailableDetail) := by
  refine ⟨rfl, ?_⟩
  intro v hv
  simp [serverUnavailableDetail] at hv

/-- Dead-or-absent process handle, as tested at main.py line 282. -/
def deadOrNil : Option ProcHandle → Prop
  | none => True
  | some p => p.alive = false

/-- C9 amended: for a completion request whose target model equals the
recorded current model, when no live process exists the endpoint raises
a structured 503 (`server_unavailable`) whose hint points at the
last-start-error diagnostics — without naming the target model — leaves
the state unchanged, calls `start_llama_server` on no path and spawns
nothing (empty event trace). -/
theorem request_path_no_restart_when_dead (env : Env) (req : CompletionRequest)
    (st : ServerState)
    (htarget : st.current_model
      = some ((env.loadConfig (model_map_lookup req.model)).modelPath))
    (hdead : deadOrNil st.llama_process) :
    completions env req st
      = (CompletionOutcome.httpError 503 serverUnavailableDetail, st, []) := by
  cases hp : st.llama_process with
  | none => simp [completions, htarget, hp]
  | some p =>
    have hpa : p.alive = false := by
      have h2 := hdead
      rw [hp] at h2
      exact h2
    simp [completions, htarget, hp, hpa]

/-- Witness for C9's amended behaviour at the concrete dead-process
state. -/
theorem request_path_no_restart_when_dead_witness :
    completions envReady reqQwen stDeadQwen
      = (CompletionOutcome.httpError 503 serverUnavailableDetail, stDeadQwen, []) :=
  request_path_no_restart_when_dead envReady reqQwen stDeadQwen rfl rfl

/-! Claim C10: monitor behaviour when no process was ever spawned. -/

/-- Monitor state before any spawn: handle nil, backoff never bound. -/
def msNeverSpawned : MonState :=
  { st := stEmpty, backoff := none }

/-- Monitor state whose process is alive but whose `backoff` local is
still bound from a crash detected in an earlier iteration. -/
def msLiveWithBackoff : MonState :=
  { st := { llama_process := some ⟨5, true⟩
            current_model := some "m"
            last_used_config := some QWEN_CONFIG
            last_start_error := none
            restart_fail_count := 3 }
    backoff := some 16 }

/-- Counterexample to C10's final clause: an iteration that observes a
live process still enters the restart path (reaching the
`start_llama_server` call, which deadlocks on the non-reentrant lock)
because the stale `backoff` from an earlier crash detection is bound —
the monitor does not restart only backends that have exited. -/
theorem monitor_restart_path_on_live_process :
    msLiveWithBackoff.st.llama_process.map ProcHandle.alive = some true ∧
    monitor_iteration msLiveWithBackoff
      = .error (MonError.deadlockOnRestart QWEN_CONFIG) :=
  ⟨rfl, rfl⟩

/-- C10 amended: when the process handle is nil, every monitor iteration
leaves the supervisor state completely unchanged, sleeps no backoff and
attempts no restart (the `continue` path); but whenever a handle exists,
a bound backoff and a stored config send the iteration into the restart
path regardless of whether the process has exited (where the
`start_llama_server` call deadlocks on the already-held lock). -/
theorem monitor_nil_handle_noop (ms : MonState)
    (h : ms.st.llama_process = none) :
    monitor_iteration ms = .ok (ms, none) ∧
    (∀ (ms' : MonState) (p : ProcHandle) (b : Nat) (cfg : String),
      ms'.st.llama_process = some p → p.alive = true →
      ms'.backoff = some b → ms'.st.last_used_config = some cfg →
      monitor_iteration ms' = .error (MonError.deadlockOnRestart cfg)) := by
  constructor
  · unfold monitor_iteration
    rw [h]
  · intro ms' p b cfg hp halive hb hcfg
    unfold monitor_iteration
    rw [hp]
    simp [halive, hb, hcfg]

/-- Witness for C10's amended no-op at the concrete never-spawned
state. -/
theorem monitor_nil_handle_noop_witness :
    monitor_iteration msNeverSpawned = .ok (msNeverSpawned, none) :=
  (monitor_nil_handle_noop msNeverSpawned rfl).1

/-! Claim C8: whether the monitor loop can run forever. -/

/-- Monitor state right after a successful start: process alive, no
crash ever detected, so the `backoff` local is unbound. -/
def msFreshAlive : MonState :=
  { st := { llama_process := some ⟨9, true⟩
            current_model := some "m"
            last_used_config := some QWEN_CONFIG
            last_start_error := none
            restart_fail_count := 0 }
    backoff := none }

/-- Monitor state observing a crashed process with a stored config. -/
def msDeadWithCfg : MonState :=
  { st := { llama_process := some ⟨9, false⟩
            current_model := some "m"
            last_used_config := some QWEN_CONFIG
            last_start_error := none
            restart_fail_count := 0 }
    backoff := none }

/-- C8 (code bug): the first monitor iteration that observes a live
process raises `UnboundLocalError` at `time.sleep(backoff)` (main.py
line 360; `backoff` is only assigned inside the crash branch),
terminating the monitor thread instead of proceeding as a no-op to the
next polling interval; and an iteration that detects a crash reaches the
`start_llama_server` call of line 364 while holding the non-reentrant
`process_lock` (line 361), deadlocking forever — on both paths the loop
fails to continue. -/
theorem monitor_iteration_cannot_run_forever :
    monitor_iteration msFreshAlive = .error MonError.unboundLocalBackoff ∧
    monitor_iteration msDeadWithCfg
      = .error (MonError.deadlockOnRestart QWEN_CONFIG) :=
  ⟨rfl, rfl⟩

/-! Claim C3: mutual exclusion under all interleavings. -/

/-- C3: for every set of threads drawn from the supervisor's code
(request-driven `start_llama_server` calls, the crash-monitor loop, and
idle request handlers) and every configuration reachable under any
interleaving: at most one backend process is alive; a thread whose next
action mutates the supervisor state (`kill`, `spawn` or a `write` of the
shared fields) holds the lock; and no two threads are simultaneously
inside a lock-protected launch/restart section, so no two launches, nor
a launch and a crash-restart, execute concurrently. -/
theorem mutual_exclusion_under_interleaving (ts : List (List Act))
    (hts : ∀ p ∈ ts, ProgOfCode p) (c : Sys)
    (hreach : Reach (initSys ts) c) :
    c.alive.length ≤ 1 ∧
    (∀ (t : Nat) (a : Act) (rest : List Act), c.thr[t]? = some (a :: rest) →
      a = Act.kill ∨ a = Act.spawn ∨ a = Act.write → c.lock = some t) ∧
    (∀ (t1 t2 : Nat) (σ1 σ2 : List Act), t1 ≠ t2 →
      c.thr[t1]? = some σ1 → c.thr[t2]? = some σ2 →
      wfActs false false σ1 = false → wfActs false false σ2 = false → False) := by
  have hwf : ∀ p ∈ ts, wfActs false false p = true := by
    intro p hp
    cases hts p hp with
    | start o => exact wfActs_start o
    | monitor os => exact wfActs_monitor os
    | idle => rfl
  obtain ⟨haliveOK, hthr⟩ := inv_reach (inv_init ts hwf) hreach
  refine ⟨?_, ?_, ?_⟩
  · rcases haliveOK with h | ⟨h, -, h2⟩
    · simp [h]
    · simp [h2]
  · intro t a rest hget hmut
    by_contra hl
    have hx := hthr t _ hget
    rw [threadOK_other hl] at hx
    rcases hmut with rfl | rfl | rfl <;> simp [wfActs] at hx
  · intro t1 t2 σ1 σ2 hne h1 h2 hw1 hw2
    have hL1 : c.lock = some t1 := by
      by_contra hl
      have hx := hthr t1 _ h1
      rw [threadOK_other hl, hw1] at hx
      exact Bool.false_ne_true hx
    have hL2 : c.lock = some t2 := by
      by_contra hl
      have hx := hthr t2 _ h2
      rw [threadOK_other hl, hw2] at hx
      exact Bool.false_ne_true hx
    rw [hL1] at hL2
    exact hne (Option.some.inj hL2)

/-- Concrete two-thread system: one model switch that reaches readiness,
and one monitor iteration that sees no process. -/
def demoThreads : List (List Act) :=
  [startActs StartOutcome.ready, monitorActs [MonOutcome.procNone]]

/-- Witness for C3 at the concrete two-thread system. -/
theorem mutual_exclusion_under_interleaving_witness :
    (initSys demoThreads).alive.length ≤ 1 :=
  (mutual_exclusion_under_interleaving demoThreads
    (by
      intro p hp
      simp only [demoThreads, List.mem_cons, List.not_mem_nil, or_false] at hp
      rcases hp with rfl | rfl
      · exact ProgOfCode.start _
      · exact ProgOfCode.monitor _)
    (initSys demoThreads) Relation.ReflTransGen.refl).1

end LlamaSupervisor
